import Mathlib

/-!
Model of the Common Crawl CDX index query tool (`src/cci.py`).

A shallow embedding of the core query-and-classify pipeline of the tool:

* `generate_url_variants` — the URL variant generator (cci.py lines 184-230),
  together with a model of the pieces of `urllib.parse` it uses;
* `query_cdx_api` — the CDX client's response classification
  (cci.py lines 233-300), taking the outcome of the single `requests.get`
  call as an explicit value;
* `processUrl` / `run_batch` — the per-URL orchestration loop
  (cci.py lines 328-439): first query, conditional variant retry, and
  assembly of the outcome records appended to `st.session_state.results`.

External library calls (`requests.get`, `json.loads`) are modelled as
explicit inputs: the network by a function from the queried URL string to a
`FetchOutcome`, and the JSON parser by a function `String → Option J` for an
abstract payload type `J` (`none` standing for `json.JSONDecodeError`).
-/

namespace CCI

variable {J : Type}

/-- Classification of one CDX query attempt. The Python code uses the string
values `"success"`, `"no_captures"`, `"error"` and `"timeout"`; we model them
as a closed enumeration. -/
inductive Classification where
  | success
  | no_captures
  | error
  | timeout
deriving DecidableEq, Repr

/-- One capture row returned by the CDX client: either one parsed JSON object
(`output=json`; the JSON payload type `J` is abstract) or the dict
`{'raw': line}` built for one line of `output=text` responses. -/
inductive RowData (J : Type) where
  | json (v : J)
  | raw (line : String)
deriving DecidableEq, Repr

/-- An HTTP response as observed by `query_cdx_api`: the status code and the
body text. -/
structure HTTPResponse where
  status_code : Nat
  text : String
deriving DecidableEq, Repr

/-- The possible outcomes of the single `requests.get` call inside
`query_cdx_api`: a response, or one of the exception classes caught by its
`except` clauses (`requests.exceptions.Timeout`,
`requests.exceptions.ConnectionError`, or any other `Exception` with message
`msg`). -/
inductive FetchOutcome where
  | ok (resp : HTTPResponse)
  | timeoutExc
  | connectionErrorExc
  | otherExc (msg : String)
deriving DecidableEq, Repr

/-- The result triple `(results, error, status)` returned by
`query_cdx_api`. -/
abbrev QueryResult (J : Type) := List (RowData J) × Option String × Classification

/-! ### Structural models of the Python string operations used

The Lean core `String` functions are position-based loops that the kernel
cannot evaluate, so the Python `str` operations are modelled directly by
structural recursion over the character list. Python treats strings as
sequences of code points, which is exactly `List Char`. -/

/-- Python `str.strip()` with no argument: drop leading and trailing
whitespace (modelled with `Char.isWhitespace`, which covers the ASCII
whitespace the tool's bodies contain). -/
def pyStrip (s : String) : String :=
  String.mk (((s.data.dropWhile Char.isWhitespace).reverse.dropWhile
    Char.isWhitespace).reverse)

/-- Split a character list at every newline character (Python
`str.split('\n')`: no collapsing, empty pieces kept). -/
def splitNlCh : List Char → List (List Char)
  | [] => [[]]
  | c :: cs =>
    if c = '\n' then [] :: splitNlCh cs
    else
      match splitNlCh cs with
      | [] => [[c]]
      | l :: ls => (c :: l) :: ls

/-- Python `s.split('\n')`. -/
def pySplitLines (s : String) : List String :=
  (splitNlCh s.data).map String.mk

/-- Tokenizer behind Python `str.split()` with no argument: maximal runs of
non-whitespace characters, with `cur` the (reversed) token being read. -/
def wsTokensAux : List Char → List Char → List (List Char)
  | cur, [] => if cur = [] then [] else [cur.reverse]
  | cur, c :: cs =>
    if c.isWhitespace then
      if cur = [] then wsTokensAux [] cs else cur.reverse :: wsTokensAux [] cs
    else wsTokensAux (c :: cur) cs

/-- Python `str.split()` with no argument: split on runs of whitespace,
dropping empty tokens. -/
def pySplit (s : String) : List String :=
  (wsTokensAux [] s.data).map String.mk

/-- Python slicing `s[:n]`: the first `n` code points. -/
def pyTake (s : String) (n : Nat) : String :=
  String.mk (s.data.take n)

/-- Python slicing `s[n:]`: drop the first `n` code points. -/
def pyDrop (s : String) (n : Nat) : String :=
  String.mk (s.data.drop n)

/-- Boolean character-list prefix test. -/
def isPrefixCh : List Char → List Char → Bool
  | [], _ => true
  | _ :: _, [] => false
  | p :: ps, c :: cs => p = c && isPrefixCh ps cs

/-- Python `s.startswith(pat)` for a single pattern. -/
def pyStartsWith (s pat : String) : Bool :=
  isPrefixCh pat.data s.data

/-- Python `s.endswith(pat)`. -/
def pyEndsWith (s pat : String) : Bool :=
  isPrefixCh pat.data.reverse s.data.reverse

/-- Worker for `pyReplace`, with fuel bounding the scan length. A non-empty
pattern consumes at least one character per step, so fuel
`length + 1` never runs out on the tool's patterns (`http://`,
`https://`). -/
def replaceChAux (pat rep : List Char) : Nat → List Char → List Char
  | 0, cs => cs
  | _ + 1, [] => []
  | fuel + 1, c :: cs =>
    if isPrefixCh pat (c :: cs) then
      rep ++ replaceChAux pat rep fuel ((c :: cs).drop pat.length)
    else c :: replaceChAux pat rep fuel cs

/-- Python `s.replace(pat, rep)` for a non-empty pattern: replace all
non-overlapping occurrences, scanning left to right. -/
def pyReplace (s pat rep : String) : String :=
  String.mk (replaceChAux pat.data rep.data (s.data.length + 1) s.data)

/-- The lines actually processed by the response-body loops of
`query_cdx_api`: `response.text.strip().split('\n')` restricted by the
`if line:` guard to non-empty lines. -/
def nonEmptyLines (body : String) : List String :=
  (pySplitLines (pyStrip body)).filter (fun l => l != "")

/-- Model of `query_cdx_api` (cci.py lines 233-300) from the point where the
HTTP round trip has happened. The request-construction part (lines 237-267)
only assembles query parameters for `requests.get` and has no effect on the
returned triple beyond selecting which response comes back, so the model
takes the fetch outcome as an input. `parse` stands for `json.loads` applied
to one line (`none` = `json.JSONDecodeError`, the case the inner
`try/except` skips with `continue`). Returns `(results, error, status)`. -/
def query_cdx_api (parse : String → Option J) (timeout : Nat) (output : String)
    (outcome : FetchOutcome) : QueryResult J :=
  match outcome with
  | .ok response =>
    if response.status_code = 200 then
      if output = "json" then
        ((pySplitLines (pyStrip response.text)).foldl
          (fun results line =>
            if line = "" then results
            else
              match parse line with
              | some v => results ++ [RowData.json v]
              | none => results) [],
         none, Classification.success)
      else
        ((pySplitLines (pyStrip response.text)).foldl
          (fun results line =>
            if line = "" then results else results ++ [RowData.raw line]) [],
         none, Classification.success)
    else if response.status_code = 404 then
      ([], none, Classification.no_captures)
    else
      ([], some ("HTTP " ++ toString response.status_code ++ ": " ++
        pyTake response.text 100), Classification.error)
  | .timeoutExc =>
      ([], some ("Timeout: Request exceeded " ++ toString timeout ++ " seconds"),
       Classification.timeout)
  | .connectionErrorExc =>
      ([], some "Connection error: Could not connect to CDX server", Classification.error)
  | .otherExc msg =>
      ([], some ("Error: " ++ pyTake msg 100), Classification.error)

/-! ## Model of the pieces of `urllib.parse` used by the variant generator -/

/-- Characters allowed in a URL scheme after the leading letter
(CPython `scheme_chars`). -/
def isSchemeChar (c : Char) : Bool :=
  c.isAlpha || c.isDigit || c = '+' || c = '-' || c = '.'

/-- Split a character list at the first occurrence of `c`; `none` when `c`
does not occur. -/
def splitFirstChar (c : Char) : List Char → Option (List Char × List Char)
  | [] => none
  | x :: xs =>
    if x = c then some ([], xs)
    else (splitFirstChar c xs).map (fun p => (x :: p.1, p.2))

/-- The named tuple returned by `urllib.parse.urlparse`, with the `params`
component (split from the path at `;`) folded into `path`; see `urlparse`
below. -/
structure SplitResult where
  scheme : String
  netloc : String
  path : String
  query : String
  fragment : String
deriving DecidableEq, Repr

/-- Model of `urllib.parse.urlparse`. Returns `none` where CPython raises
`ValueError` (unbalanced square brackets in the netloc), which
`generate_url_variants` catches with its bare `except`. The `params`
component is kept inside `path` (i.e. `urlsplit` semantics); the tool never
feeds it a URL with `;`-params in a way its claims depend on, and
`urlunparse` with empty `params` coincides with `urlunsplit`. -/
def urlparse (url : String) : Option SplitResult :=
  let cs := url.data
  let schemeRest : List Char × List Char :=
    match splitFirstChar ':' cs with
    | none => ([], cs)
    | some p =>
      match p.1 with
      | [] => ([], cs)
      | c0 :: tl =>
        if c0.isAlpha && tl.all isSchemeChar then ((c0 :: tl).map Char.toLower, p.2)
        else ([], cs)
  let netlocRest : List Char × List Char :=
    match schemeRest.2 with
    | '/' :: '/' :: tl =>
      (tl.takeWhile (fun c => c != '/' && c != '?' && c != '#'),
       tl.dropWhile (fun c => c != '/' && c != '?' && c != '#'))
    | rest => ([], rest)
  if (netlocRest.1.contains '[' && !netlocRest.1.contains ']') ||
      (netlocRest.1.contains ']' && !netlocRest.1.contains '[') then
    none
  else
    let restFrag : List Char × List Char :=
      match splitFirstChar '#' netlocRest.2 with
      | some p => p
      | none => (netlocRest.2, [])
    let pathQuery : List Char × List Char :=
      match splitFirstChar '?' restFrag.1 with
      | some p => p
      | none => (restFrag.1, [])
    some ⟨String.mk schemeRest.1, String.mk netlocRest.1, String.mk pathQuery.1,
      String.mk pathQuery.2, String.mk restFrag.2⟩

/-- Model of `urllib.parse.urlunparse` on a parse result with empty `params`
(equivalently `urlunsplit`). -/
def urlunparse (r : SplitResult) : String :=
  let url := r.path
  let url :=
    if r.netloc != "" || pyStartsWith url "//" then
      "//" ++ r.netloc ++ (if url != "" && !pyStartsWith url "/" then "/" ++ url else url)
    else url
  let url := if r.scheme != "" then r.scheme ++ ":" ++ url else url
  let url := if r.query != "" then url ++ "?" ++ r.query else url
  if r.fragment != "" then url ++ "#" ++ r.fragment else url

/-- Python `path.rstrip('/')`: drop all trailing `'/'` characters. -/
def rstripSlash (s : String) : String :=
  String.mk ((s.data.reverse.dropWhile (fun c => c = '/')).reverse)

/-- The candidate variants appended after the initial `[url]` by
`generate_url_variants` (cci.py lines 189-220), in generation order:
the `http://`/`https://` prepends when the URL has no such scheme, then —
unless `urlparse` raises, in which case the bare `except` skips them — the
`www.` toggle, the scheme toggle (a full-string `str.replace`), and the
trailing-slash toggle. -/
def restVariants (url : String) : List String :=
  let prefixed := pyStartsWith url "http://" || pyStartsWith url "https://"
  let fromStep1 : List String :=
    if prefixed then [] else ["http://" ++ url, "https://" ++ url]
  let base := if prefixed then url else "http://" ++ url
  match urlparse base with
  | none => fromStep1
  | some parsed =>
    let domain := parsed.netloc
    let wwwVariant :=
      if pyStartsWith domain "www." then urlunparse { parsed with netloc := pyDrop domain 4 }
      else urlunparse { parsed with netloc := "www." ++ domain }
    let protoVariant :=
      if parsed.scheme = "http" then pyReplace base "http://" "https://"
      else pyReplace base "https://" "http://"
    let slashVariant :=
      if pyEndsWith parsed.path "/" then urlunparse { parsed with path := rstripSlash parsed.path }
      else urlunparse { parsed with path := parsed.path ++ "/" }
    fromStep1 ++ [wwwVariant, protoVariant, slashVariant]

/-- The order-preserving duplicate-removal pass at the end of
`generate_url_variants` (cci.py lines 222-228), with the `seen` set carried
as a list. -/
def dedupeFrom (seen : List String) : List String → List String
  | [] => []
  | v :: rest =>
    if v ∈ seen then dedupeFrom seen rest else v :: dedupeFrom (v :: seen) rest

/-- Model of `generate_url_variants` (cci.py lines 184-230). The Python code
builds `variants` as `[url]` followed by the appended candidates
(`restVariants`), then removes later duplicates keeping first
occurrences. -/
def generate_url_variants (url : String) : List String :=
  dedupeFrom [] (url :: restVariants url)

/-! ## The orchestrator: per-URL loop and record assembly -/

/-- The per-batch configuration the orchestration loop reads: match type,
the auto-retry-variants flag, output encoding, timeout, and the JSON line
parser (the stand-in for `json.loads`). The remaining sidebar settings
(limit, filters, date range, field list) only feed request construction. -/
structure QueryConfig (J : Type) where
  match_type : String
  auto_retry_variants : Bool
  output : String
  timeout : Nat
  parse : String → Option J

/-- One CDX client call for one query string `u`: `net` gives the outcome of
the underlying HTTP request for each query string. -/
def runQuery (cfg : QueryConfig J) (net : String → FetchOutcome) (u : String) :
    QueryResult J :=
  query_cdx_api cfg.parse cfg.timeout cfg.output (net u)

/-- The variant retry loop (cci.py lines 352-370): for each variant not in
`tried_variants`, append it to `tried_variants` and query it; `break` as soon
as a query classifies as `success`; otherwise the latest result overwrites
`(results, error, status)` and the loop continues. Returns the final result
triple together with the final `tried_variants` list. -/
def variantLoop (run : String → QueryResult J) :
    List String → List String → QueryResult J → QueryResult J × List String
  | [], tried, acc => (acc, tried)
  | v :: rest, tried, acc =>
    if v ∈ tried then variantLoop run rest tried acc
    else
      let r := run v
      if r.2.2 = Classification.success then (r, tried ++ [v])
      else variantLoop run rest (tried ++ [v]) r

/-- The first query for an input URL plus the conditional variant retry
(cci.py lines 334-370): the retry loop runs exactly when the first attempt
classified `no_captures`, auto-retry is enabled and the match type is
`exact`. Returns the final `(results, error, status)` the record-emission
code sees, together with the final `tried_variants` list (initially
`[url]`). -/
def finalAndTried (cfg : QueryConfig J) (net : String → FetchOutcome) (u : String) :
    QueryResult J × List String :=
  let first := runQuery cfg net u
  if first.2.2 = Classification.no_captures ∧ cfg.auto_retry_variants = true ∧
      cfg.match_type = "exact" then
    variantLoop (runQuery cfg net) (generate_url_variants u) [u] first
  else (first, [u])

/-- One row of `st.session_state.results`. The seven structured capture
fields are optional: the `error`/`no_captures` records store `None` in each;
a text-format capture row with at least 7 whitespace tokens stores the
tokens; for a JSON capture row the structured data lives inside the JSON
payload (kept in `data`) and the seven keys are not separately set, which we
render as `none`. `data` holds the underlying capture row for
`capture`-type records and `none` for the two sentinel record shapes. -/
structure OutcomeRecord (J : Type) where
  query_url : String
  result_type : String
  error_message : Option String
  captures_found : Nat
  urlkey : Option String
  timestamp : Option String
  url : Option String
  mime : Option String
  status : Option String
  digest : Option String
  length : Option String
  data : Option (RowData J)
deriving DecidableEq, Repr

/-- The `error`-type record appended for an `error` or `timeout`
classification (cci.py lines 375-389). -/
def errorRecord (u : String) (e : Option String) : OutcomeRecord J :=
  ⟨u, "error", e, 0, none, none, none, none, none, none, none, none⟩

/-- The `no_captures`-type record (cci.py lines 392-406). -/
def noCapturesRecord (u : String) : OutcomeRecord J :=
  ⟨u, "no_captures", none, 0, none, none, none, none, none, none, none, none⟩

/-- Assembly of one `capture`-type record (cci.py lines 412-430): stamp the
original queried URL, the capture count `n = len(results)`, and — only for a
raw text row whose line splits into at least 7 whitespace-delimited tokens —
map the first 7 tokens, in order, to `urlkey`, `timestamp`, `url`, `mime`,
`status`, `digest`, `length`. -/
def captureRecord (u : String) (n : Nat) (row : RowData J) : OutcomeRecord J :=
  match row with
  | .json v =>
    ⟨u, "capture", none, n, none, none, none, none, none, none, none, some (.json v)⟩
  | .raw line =>
    let parts := pySplit line
    if parts.length ≥ 7 then
      ⟨u, "capture", none, n, parts[0]?, parts[1]?, parts[2]?, parts[3]?, parts[4]?,
        parts[5]?, parts[6]?, some (.raw line)⟩
    else
      ⟨u, "capture", none, n, none, none, none, none, none, none, none, some (.raw line)⟩

/-- Emission of the outcome records for one URL from its final result triple
(cci.py lines 374-433). Note the `if results:` guard in the success branch:
a `success` classification with an empty capture list appends no record at
all. -/
def emitRecords (u : String) (final : QueryResult J) : List (OutcomeRecord J) :=
  match final.2.2 with
  | .error => [errorRecord u final.2.1]
  | .timeout => [errorRecord u final.2.1]
  | .no_captures => [noCapturesRecord u]
  | .success => final.1.map (captureRecord u final.1.length)

/-- Full processing of one input URL (cci.py lines 328-433): the records it
appends to the batch, and the final `tried_variants` list recording exactly
which query strings were sent for it. -/
def processUrl (cfg : QueryConfig J) (net : String → FetchOutcome) (u : String) :
    List (OutcomeRecord J) × List String :=
  (emitRecords u (finalAndTried cfg net u).1, (finalAndTried cfg net u).2)

/-- The whole batch loop (cci.py lines 328-439): URLs processed strictly
sequentially, each URL's records appended in order, no early exit. -/
def run_batch (cfg : QueryConfig J) (net : String → FetchOutcome) (urls : List String) :
    List (OutcomeRecord J) :=
  match urls with
  | [] => []
  | u :: rest => (processUrl cfg net u).1 ++ run_batch cfg net rest

/-! ## Concrete instantiations used by witnesses and counterexamples

`parse1` is a concrete stand-in for `json.loads` on single-line bodies: it
parses the JSON document `1` (and nothing else) to the payload `1 : Nat`. -/

/-- Concrete JSON-line parser: accepts exactly the body line `1`. -/
def parse1 : String → Option Nat := fun s => if s = "1" then some 1 else none

/-- Configuration: exact match, auto-retry on, JSON output. -/
def cfgExact : QueryConfig Nat :=
  ⟨"exact", true, "json", 10, parse1⟩

/-- Configuration: domain match, auto-retry on, JSON output. -/
def cfgDomain : QueryConfig Nat :=
  ⟨"domain", true, "json", 10, parse1⟩

/-- Network where every request yields HTTP 404. -/
def net404 : String → FetchOutcome := fun _ => .ok ⟨404, ""⟩

/-- Network where every request yields HTTP 200 with an empty body:
classification `success` with an empty capture list. -/
def netEmpty200 : String → FetchOutcome := fun _ => .ok ⟨200, ""⟩

/-- Network for the variant-retry scenarios: the original form `a` yields
404, the variant `http://a` times out, the variant `https://a` yields
HTTP 200 with the single JSON row `1`. -/
def netC2 : String → FetchOutcome := fun q =>
  if q = "a" then .ok ⟨404, ""⟩
  else if q = "http://a" then .timeoutExc
  else if q = "https://a" then .ok ⟨200, "1"⟩
  else .ok ⟨404, ""⟩

/-- Network for the spec's mocked retry scenario: `missing.example` and its
`http://` form yield 404, `https://missing.example` yields HTTP 200 with one
JSON capture row. -/
def netC4 : String → FetchOutcome := fun q =>
  if q = "https://missing.example" then .ok ⟨200, "1"⟩ else .ok ⟨404, ""⟩

/-! ## Helper lemmas -/

theorem dedupeFrom_mem_not_seen :
    ∀ (l seen : List String) (x : String), x ∈ dedupeFrom seen l → x ∉ seen
  | [], _, x => by simp [dedupeFrom]
  | v :: rest, seen, x => by
    by_cases hv : v ∈ seen
    · simp only [dedupeFrom, if_pos hv]
      exact dedupeFrom_mem_not_seen rest seen x
    · simp only [dedupeFrom, if_neg hv]
      intro hx
      rcases List.mem_cons.mp hx with h | h
      · exact h ▸ hv
      · have hns := dedupeFrom_mem_not_seen rest (v :: seen) x h
        exact fun hs => hns (List.mem_cons_of_mem v hs)

theorem dedupeFrom_nodup : ∀ (l seen : List String), (dedupeFrom seen l).Nodup
  | [], _ => by simp [dedupeFrom]
  | v :: rest, seen => by
    by_cases hv : v ∈ seen
    · simpa [dedupeFrom, hv] using dedupeFrom_nodup rest seen
    · simp only [dedupeFrom, if_neg hv]
      refine List.nodup_cons.mpr ⟨?_, dedupeFrom_nodup rest (v :: seen)⟩
      intro hmem
      exact dedupeFrom_mem_not_seen rest (v :: seen) v hmem (List.mem_cons_self v seen)

theorem json_foldl_eq (parse : String → Option J) (lines : List String) :
    ∀ acc : List (RowData J),
      lines.foldl
        (fun results line =>
          if line = "" then results
          else
            match parse line with
            | some v => results ++ [RowData.json v]
            | none => results) acc
      = acc ++ (lines.filter (fun l => l != "")).filterMap
          (fun l => (parse l).map RowData.json) := by
  induction lines with
  | nil => intro acc; simp
  | cons line rest ih =>
    intro acc
    by_cases h : line = ""
    · subst h
      simp [ih]
    · cases hp : parse line with
      | none => simp [h, hp, ih]
      | some v => simp [h, hp, ih]

theorem text_foldl_eq (lines : List String) :
    ∀ acc : List (RowData J),
      lines.foldl
        (fun results line =>
          if line = "" then results else results ++ [RowData.raw line]) acc
      = acc ++ (lines.filter (fun l => l != "")).map RowData.raw := by
  induction lines with
  | nil => intro acc; simp
  | cons line rest ih =>
    intro acc
    by_cases h : line = ""
    · subst h
      simp [ih]
    · simp [h, ih]

theorem captureRecord_query_url (u : String) (n : Nat) (row : RowData J) :
    (captureRecord u n row).query_url = u := by
  cases row with
  | json v => rfl
  | raw line =>
    simp only [captureRecord]
    split <;> rfl

theorem captureRecord_data (u : String) (n : Nat) (row : RowData J) :
    (captureRecord u n row).data = some row := by
  cases row with
  | json v => rfl
  | raw line =>
    simp only [captureRecord]
    split <;> rfl

theorem emitRecords_query_url (u : String) (f : QueryResult J) :
    ∀ r ∈ emitRecords u f, r.query_url = u := by
  rcases f with ⟨res, err, cls⟩
  intro r hr
  cases cls with
  | success =>
    simp only [emitRecords, List.mem_map] at hr
    obtain ⟨row, _, hrow⟩ := hr
    exact hrow ▸ captureRecord_query_url u res.length row
  | no_captures =>
    simp only [emitRecords, List.mem_singleton] at hr
    exact hr ▸ rfl
  | error =>
    simp only [emitRecords, List.mem_singleton] at hr
    exact hr ▸ rfl
  | timeout =>
    simp only [emitRecords, List.mem_singleton] at hr
    exact hr ▸ rfl

theorem emitRecords_ne_nil (u : String) (f : QueryResult J)
    (h : f.2.2 = Classification.success → f.1 ≠ []) : emitRecords u f ≠ [] := by
  rcases f with ⟨res, err, cls⟩
  cases cls with
  | success => simpa [emitRecords] using h rfl
  | no_captures => simp [emitRecords]
  | error => simp [emitRecords]
  | timeout => simp [emitRecords]

theorem emitRecords_of_no_captures (u : String) (f : QueryResult J)
    (h : f.2.2 = Classification.no_captures) : emitRecords u f = [noCapturesRecord u] := by
  rcases f with ⟨res, err, cls⟩
  cases cls <;> simp_all [emitRecords]

theorem finalAndTried_pos (cfg : QueryConfig J) (net : String → FetchOutcome) (u : String)
    (h : (runQuery cfg net u).2.2 = Classification.no_captures ∧
      cfg.auto_retry_variants = true ∧ cfg.match_type = "exact") :
    finalAndTried cfg net u =
      variantLoop (runQuery cfg net) (generate_url_variants u) [u] (runQuery cfg net u) := by
  simp only [finalAndTried, if_pos h]

theorem finalAndTried_neg (cfg : QueryConfig J) (net : String → FetchOutcome) (u : String)
    (h : ¬ ((runQuery cfg net u).2.2 = Classification.no_captures ∧
      cfg.auto_retry_variants = true ∧ cfg.match_type = "exact")) :
    finalAndTried cfg net u = (runQuery cfg net u, [u]) := by
  simp only [finalAndTried, if_neg h]

theorem variantLoop_break (run : String → QueryResult J) (v : String)
    (rest tried : List String) (acc : QueryResult J) (hv : v ∉ tried)
    (hs : (run v).2.2 = Classification.success) :
    variantLoop run (v :: rest) tried acc = (run v, tried ++ [v]) := by
  simp only [variantLoop, if_neg hv, if_pos hs]

theorem variantLoop_continue (run : String → QueryResult J) (v : String)
    (rest tried : List String) (acc : QueryResult J) (hv : v ∉ tried)
    (hs : (run v).2.2 ≠ Classification.success) :
    variantLoop run (v :: rest) tried acc = variantLoop run rest (tried ++ [v]) (run v) := by
  simp only [variantLoop, if_neg hv, if_neg hs]

theorem variantLoop_all_no_captures (run : String → QueryResult J)
    (hrun : ∀ q, (run q).2.2 = Classification.no_captures) :
    ∀ (vs tried : List String) (acc : QueryResult J),
      acc.2.2 = Classification.no_captures →
      ((variantLoop run vs tried acc).1).2.2 = Classification.no_captures
  | [], _, acc, hacc => by simpa [variantLoop] using hacc
  | v :: rest, tried, acc, hacc => by
    by_cases hv : v ∈ tried
    · simp only [variantLoop, if_pos hv]
      exact variantLoop_all_no_captures run hrun rest tried acc hacc
    · have hns : (run v).2.2 ≠ Classification.success := by simp [hrun v]
      simp only [variantLoop, if_neg hv, if_neg hns]
      exact variantLoop_all_no_captures run hrun rest (tried ++ [v]) (run v) (hrun v)

theorem processUrl_records (cfg : QueryConfig J) (net : String → FetchOutcome) (u : String) :
    (processUrl cfg net u).1 = emitRecords u (finalAndTried cfg net u).1 := rfl

theorem run_batch_cons (cfg : QueryConfig J) (net : String → FetchOutcome)
    (u : String) (rest : List String) :
    run_batch cfg net (u :: rest) = (processUrl cfg net u).1 ++ run_batch cfg net rest := rfl

theorem run_batch_query_url_mem (cfg : QueryConfig J) (net : String → FetchOutcome) :
    ∀ (urls : List String), ∀ r ∈ run_batch cfg net urls, r.query_url ∈ urls
  | [], r, hr => by simp [run_batch] at hr
  | u :: rest, r, hr => by
    rw [run_batch_cons] at hr
    rcases List.mem_append.mp hr with h1 | h2
    · rw [processUrl_records] at h1
      have hq := emitRecords_query_url u (finalAndTried cfg net u).1 r h1
      exact hq ▸ List.mem_cons_self u rest
    · exact List.mem_cons_of_mem u (run_batch_query_url_mem cfg net rest r h2)

theorem run_batch_exists_record (cfg : QueryConfig J) (net : String → FetchOutcome) :
    ∀ (urls : List String),
      (∀ v ∈ urls, (finalAndTried cfg net v).1.2.2 = Classification.success →
        (finalAndTried cfg net v).1.1 ≠ []) →
      ∀ u ∈ urls, ∃ r ∈ run_batch cfg net urls, r.query_url = u
  | [], _, u, hu => by simp at hu
  | w :: rest, h, u, hu => by
    rcases List.mem_cons.mp hu with rfl | hu2
    · have hne : emitRecords u (finalAndTried cfg net u).1 ≠ [] :=
        emitRecords_ne_nil u _ (h u (List.mem_cons_self u rest))
      obtain ⟨r, hr⟩ := List.exists_mem_of_ne_nil _ hne
      refine ⟨r, ?_, emitRecords_query_url u _ r hr⟩
      rw [run_batch_cons]
      exact List.mem_append_left _ (by rw [processUrl_records]; exact hr)
    · obtain ⟨r, hr, hq⟩ := run_batch_exists_record cfg net rest
        (fun v hv => h v (List.mem_cons_of_mem w hv)) u hu2
      exact ⟨r, by rw [run_batch_cons]; exact List.mem_append_right _ hr, hq⟩

/-! ## Claim theorems -/

/-- C1, counterexample: for a batch with the single input URL
`"example.com"` whose query returns HTTP 200 with an empty body — i.e. the
CDX client classifies it `success` with an empty capture list — the finished
batch contains no record at all, so the input URL contributes no
`OutcomeRecord` and the set of distinct `query_url` values is empty, not the
input set. This refutes the claim's "every input URL contributes at least
one OutcomeRecord ... including when the CDX Client returns classification
success with an empty capture list". -/
theorem C1_counterexample :
    (runQuery cfgDomain netEmpty200 "example.com").2.2 = Classification.success ∧
    (runQuery cfgDomain netEmpty200 "example.com").1 = [] ∧
    run_batch cfgDomain netEmpty200 ["example.com"] = [] :=
  ⟨rfl, rfl, rfl⟩

/-- C1 (amended): in every batch run, every record's `query_url` is one of
the input URLs; and provided no input URL's final classification is
`success` with an empty capture list (the one case the code's `if results:`
guard drops silently), every input URL contributes at least one record, so
the set of distinct `query_url` values equals the set of input URLs. -/
theorem C1_query_url_accounting (cfg : QueryConfig J) (net : String → FetchOutcome)
    (urls : List String)
    (h : ∀ v ∈ urls, (finalAndTried cfg net v).1.2.2 = Classification.success →
      (finalAndTried cfg net v).1.1 ≠ []) :
    (∀ r ∈ run_batch cfg net urls, r.query_url ∈ urls) ∧
    (∀ u ∈ urls, ∃ r ∈ run_batch cfg net urls, r.query_url = u) ∧
    (∀ x, x ∈ (run_batch cfg net urls).map OutcomeRecord.query_url ↔ x ∈ urls) := by
  refine ⟨run_batch_query_url_mem cfg net urls,
    run_batch_exists_record cfg net urls h, fun x => ⟨?_, ?_⟩⟩
  · intro hx
    obtain ⟨r, hr, hq⟩ := List.mem_map.mp hx
    exact hq ▸ run_batch_query_url_mem cfg net urls r hr
  · intro hx
    obtain ⟨r, hr, hq⟩ := run_batch_exists_record cfg net urls h x hx
    exact List.mem_map.mpr ⟨r, hr, hq⟩

/-- Witness for C1: a concrete all-404 batch over two URLs (every URL ends
`no_captures`, the side condition holds), where the first input URL indeed
contributes a record. -/
theorem C1_query_url_accounting_witness :
    ∃ r ∈ run_batch cfgDomain net404 ["a.com", "b.com"], r.query_url = "a.com" :=
  ((C1_query_url_accounting cfgDomain net404 ["a.com", "b.com"] (by decide)).2.1)
    "a.com" (by simp)

/-- C2, counterexample: with match type `exact` and auto-retry on, for input
URL `"a"`: the original form classifies `no_captures`, the first variant
`"http://a"` classifies `timeout`, yet the orchestrator goes on to query the
next variant `"https://a"` (visible in the final `tried_variants` list) and
reports that variant's `success` as one capture record. The claim requires
stopping at the timeout variant and emitting an error record; the code only
breaks on `success`. -/
theorem C2_counterexample :
    (runQuery cfgExact netC2 "http://a").2.2 = Classification.timeout ∧
    (processUrl cfgExact netC2 "a").2 = ["a", "http://a", "https://a"] ∧
    (processUrl cfgExact netC2 "a").1 = [captureRecord "a" 1 (RowData.json 1)] :=
  ⟨rfl, rfl, rfl⟩

/-- C2 (amended): in the variant-retry loop, (i) the loop stops at the first
untried variant classified `success`, returning that variant's result;
(ii) a variant classified anything other than `success` — in particular a
transport `error`/`timeout` — does not stop the loop: the loop continues
with the remaining variants, the non-success result only overwriting the
current one; (iii) if the first attempt and every variant classify
`no_captures`, the URL yields exactly one `no_captures`-type record. -/
theorem C2_variant_loop (run : String → QueryResult J) (v : String)
    (rest tried : List String) (acc : QueryResult J)
    (cfg : QueryConfig J) (net : String → FetchOutcome) (u : String) :
    (v ∉ tried → (run v).2.2 = Classification.success →
      variantLoop run (v :: rest) tried acc = (run v, tried ++ [v])) ∧
    (v ∉ tried → (run v).2.2 ≠ Classification.success →
      variantLoop run (v :: rest) tried acc = variantLoop run rest (tried ++ [v]) (run v)) ∧
    (cfg.match_type = "exact" → cfg.auto_retry_variants = true →
      (∀ q, (runQuery cfg net q).2.2 = Classification.no_captures) →
      (processUrl cfg net u).1 = [noCapturesRecord u]) := by
  refine ⟨variantLoop_break run v rest tried acc,
    variantLoop_continue run v rest tried acc, fun hm ha hrun => ?_⟩
  rw [processUrl_records, finalAndTried_pos cfg net u ⟨hrun u, ha, hm⟩]
  exact emitRecords_of_no_captures u _
    (variantLoop_all_no_captures (runQuery cfg net) hrun
      (generate_url_variants u) [u] (runQuery cfg net u) (hrun u))

/-- Witness for C2: an all-404 network under `exact` match with auto-retry:
the input URL `"a"` yields exactly one `no_captures` record after the
variant list is exhausted. -/
theorem C2_variant_loop_witness :
    (processUrl cfgExact net404 "a").1 = [noCapturesRecord "a"] :=
  (C2_variant_loop (runQuery cfgExact net404) "x" [] []
      ([], none, Classification.no_captures) cfgExact net404 "a").2.2
    rfl rfl (fun _ => rfl)

/-- C3: the orchestrator takes the variant-retry path if and only if the
first attempt classified `no_captures`, auto-retry is enabled and the match
type is `exact`: (i) when the condition fails, the records come from the
first attempt alone and no variant is queried (`tried_variants` stays
`[u]`); (ii) when it holds, the outcome is exactly that of the variant loop;
(iii) in particular, under match type `domain` a `no_captures` first attempt
yields exactly one `no_captures` record and no variant retries, whatever the
auto-retry flag. -/
theorem C3_retry_condition (cfg : QueryConfig J) (net : String → FetchOutcome) (u : String) :
    (¬ ((runQuery cfg net u).2.2 = Classification.no_captures ∧
        cfg.auto_retry_variants = true ∧ cfg.match_type = "exact") →
      processUrl cfg net u = (emitRecords u (runQuery cfg net u), [u])) ∧
    (((runQuery cfg net u).2.2 = Classification.no_captures ∧
        cfg.auto_retry_variants = true ∧ cfg.match_type = "exact") →
      processUrl cfg net u =
        (emitRecords u (variantLoop (runQuery cfg net) (generate_url_variants u) [u]
            (runQuery cfg net u)).1,
          (variantLoop (runQuery cfg net) (generate_url_variants u) [u]
            (runQuery cfg net u)).2)) ∧
    (cfg.match_type = "domain" → (runQuery cfg net u).2.2 = Classification.no_captures →
      processUrl cfg net u = ([noCapturesRecord u], [u])) := by
  refine ⟨fun hneg => ?_, fun hpos => ?_, fun hd hnc => ?_⟩
  · show (emitRecords u (finalAndTried cfg net u).1, (finalAndTried cfg net u).2) = _
    rw [finalAndTried_neg cfg net u hneg]
  · show (emitRecords u (finalAndTried cfg net u).1, (finalAndTried cfg net u).2) = _
    rw [finalAndTried_pos cfg net u hpos]
  · have hneg : ¬ ((runQuery cfg net u).2.2 = Classification.no_captures ∧
        cfg.auto_retry_variants = true ∧ cfg.match_type = "exact") := by
      rintro ⟨-, -, hx⟩
      rw [hd] at hx
      exact absurd hx (by decide)
    show (emitRecords u (finalAndTried cfg net u).1, (finalAndTried cfg net u).2) = _
    rw [finalAndTried_neg cfg net u hneg]
    rw [emitRecords_of_no_captures u _ hnc]

/-- Witness for C3: the spec's mocked scenario — HTTP 404 for
`"missing.example"`, match type `domain`, auto-retry enabled — yields
exactly one `no_captures` record and an untouched `tried_variants` list. -/
theorem C3_retry_condition_witness :
    processUrl cfgDomain net404 "missing.example" =
      ([noCapturesRecord "missing.example"], ["missing.example"]) :=
  (C3_retry_condition cfgDomain net404 "missing.example").2.2 rfl rfl

/-- C4: every record the orchestrator emits for input URL `u` — in
particular every `capture`-type record produced after a variant matched —
carries `query_url = u`, never the variant string; and a capture record
keeps the capture row of the response it was built from (its payload `data`
is exactly that row, with `query_url` stamped to `u`). -/
theorem C4_original_url_stamping (cfg : QueryConfig J) (net : String → FetchOutcome)
    (u : String) :
    (∀ r ∈ (processUrl cfg net u).1, r.query_url = u) ∧
    (∀ (n : Nat) (row : RowData J),
      (captureRecord u n row).query_url = u ∧ (captureRecord u n row).data = some row) := by
  refine ⟨fun r hr => ?_, fun n row => ⟨captureRecord_query_url u n row,
    captureRecord_data u n row⟩⟩
  rw [processUrl_records] at hr
  exact emitRecords_query_url u (finalAndTried cfg net u).1 r hr

/-- Witness for C4: the spec's mocked retry scenario (404 on
`"missing.example"`, 200 with one JSON row on `"https://missing.example"`,
exact match, auto-retry): the single emitted capture record is stamped with
the original URL. -/
theorem C4_original_url_stamping_witness :
    (captureRecord "missing.example" 1 (RowData.json (1 : Nat))).query_url =
      "missing.example" :=
  (C4_original_url_stamping cfgExact netC4 "missing.example").1
    (captureRecord "missing.example" 1 (RowData.json 1)) (by decide)

/-- C5: for every non-empty URL string, `generate_url_variants` returns a
sequence whose first element is the input URL itself and which contains no
duplicate values (later duplicates dropped, first occurrences kept). -/
theorem C5_variants_head_nodup (u : String) (h : u ≠ "") :
    (generate_url_variants u).head? = some u ∧ (generate_url_variants u).Nodup := by
  constructor
  · show (dedupeFrom [] (u :: restVariants u)).head? = some u
    simp [dedupeFrom]
  · exact dedupeFrom_nodup _ _

/-- Witness for C5 at the concrete URL `"example.com"`. -/
theorem C5_variants_head_nodup_witness :
    (generate_url_variants "example.com").head? = some "example.com" ∧
    (generate_url_variants "example.com").Nodup :=
  C5_variants_head_nodup "example.com" (by decide)

/-- C6: `query_cdx_api` classifies by HTTP outcome — status 404 gives
`([], none, no_captures)`; any status other than 200 and 404 gives
classification `error` with the detail carrying the status code and the
first 100 characters of the response body; a transport timeout gives
classification `timeout` with the detail stating the configured timeout
value. -/
theorem C6_http_classification (parse : String → Option J) (timeout : Nat)
    (output body : String) (code : Nat) :
    query_cdx_api parse timeout output (FetchOutcome.ok ⟨404, body⟩) =
      ([], none, Classification.no_captures) ∧
    (code ≠ 200 → code ≠ 404 →
      query_cdx_api parse timeout output (FetchOutcome.ok ⟨code, body⟩) =
        ([], some ("HTTP " ++ toString code ++ ": " ++ pyTake body 100),
          Classification.error)) ∧
    query_cdx_api parse timeout output FetchOutcome.timeoutExc =
      ([], some ("Timeout: Request exceeded " ++ toString timeout ++ " seconds"),
        Classification.timeout) := by
  refine ⟨by simp [query_cdx_api], fun h200 h404 => by simp [query_cdx_api, h200, h404], rfl⟩

/-- Witness for C6: a concrete HTTP 500 response. -/
theorem C6_http_classification_witness :
    query_cdx_api parse1 10 "json" (FetchOutcome.ok ⟨500, "boom"⟩) =
      ([], some "HTTP 500: boom", Classification.error) :=
  ((C6_http_classification parse1 10 "json" "boom" 500).2.1 (by decide) (by decide)).trans
    (by decide)

/-- C7: on HTTP 200 with `output=json`, the capture list is exactly the
JSON values obtained by parsing each non-empty line of the (stripped)
response body independently, in body order; every line that fails to parse
is silently dropped, and the classification is `success` regardless of such
lines. -/
theorem C7_json_line_handling (parse : String → Option J) (timeout : Nat) (body : String) :
    query_cdx_api parse timeout "json" (FetchOutcome.ok ⟨200, body⟩) =
      ((nonEmptyLines body).filterMap (fun l => (parse l).map RowData.json),
        none, Classification.success) := by
  have h1 : query_cdx_api parse timeout "json" (FetchOutcome.ok ⟨200, body⟩) =
      ((pySplitLines (pyStrip body)).foldl
        (fun results line =>
          if line = "" then results
          else
            match parse line with
            | some v => results ++ [RowData.json v]
            | none => results) [],
       none, Classification.success) := rfl
  rw [h1, json_foldl_eq parse (pySplitLines (pyStrip body)) []]
  rfl

/-- C8: on HTTP 200 with `output=text`, each non-empty line of the
(stripped) body becomes one raw capture row; a raw row whose line splits
into at least 7 whitespace-delimited tokens has its first 7 tokens mapped in
fixed order to `urlkey`, `timestamp`, `url`, `mime`, `status`, `digest`,
`length`, while a row with fewer than 7 tokens keeps only the opaque raw
line with none of the 7 structured fields populated. -/
theorem C8_text_field_mapping (parse : String → Option J) (timeout : Nat)
    (body line u : String) (n : Nat) :
    query_cdx_api parse timeout "text" (FetchOutcome.ok ⟨200, body⟩) =
      (((nonEmptyLines body).map RowData.raw : List (RowData J)),
        none, Classification.success) ∧
    ((pySplit line).length ≥ 7 →
      (captureRecord u n (RowData.raw line) : OutcomeRecord J) =
        ⟨u, "capture", none, n, (pySplit line)[0]?, (pySplit line)[1]?, (pySplit line)[2]?,
          (pySplit line)[3]?, (pySplit line)[4]?, (pySplit line)[5]?, (pySplit line)[6]?,
          some (RowData.raw line)⟩) ∧
    ((pySplit line).length < 7 →
      (captureRecord u n (RowData.raw line) : OutcomeRecord J) =
        ⟨u, "capture", none, n, none, none, none, none, none, none, none,
          some (RowData.raw line)⟩) := by
  refine ⟨?_, fun h7 => ?_, fun h7 => ?_⟩
  · have h1 : query_cdx_api parse timeout "text" (FetchOutcome.ok ⟨200, body⟩) =
        (((pySplitLines (pyStrip body)).foldl
          (fun results line =>
            if line = "" then results else results ++ [RowData.raw line]) [] :
            List (RowData J)),
         none, Classification.success) := rfl
    rw [h1, text_foldl_eq (pySplitLines (pyStrip body)) []]
    rfl
  · simp only [captureRecord, if_pos h7]
  · simp only [captureRecord, if_neg (Nat.not_le.mpr h7)]

/-- Witness for C8: a concrete well-formed 7-token text line. -/
theorem C8_text_field_mapping_witness :
    (captureRecord "x" 1 (RowData.raw "k 2 u m 200 d 9") : OutcomeRecord Nat) =
      ⟨"x", "capture", none, 1, some "k", some "2", some "u", some "m", some "200",
        some "d", some "9", some (RowData.raw "k 2 u m 200 d 9")⟩ :=
  ((C8_text_field_mapping (J := Nat) parse1 10 "" "k 2 u m 200 d 9" "x" 1).2.1
    (by decide)).trans (by decide)

/-- C9: per-URL failures are isolated — the batch loop always processes the
head URL and then continues with the rest, whatever the head's outcome; and
for a batch of 3 URLs over a network that always times out, exactly 3
`error`-type records are emitted, one per input URL in order, so the batch
error count is 3. -/
theorem C9_error_isolation (cfg : QueryConfig J) (net : String → FetchOutcome)
    (u : String) (urls : List String) (u1 u2 u3 : String) :
    run_batch cfg net (u :: urls) = (processUrl cfg net u).1 ++ run_batch cfg net urls ∧
    run_batch cfg (fun _ => FetchOutcome.timeoutExc) [u1, u2, u3] =
      [errorRecord u1
          (some ("Timeout: Request exceeded " ++ toString cfg.timeout ++ " seconds")),
        errorRecord u2
          (some ("Timeout: Request exceeded " ++ toString cfg.timeout ++ " seconds")),
        errorRecord u3
          (some ("Timeout: Request exceeded " ++ toString cfg.timeout ++ " seconds"))] ∧
    ((run_batch cfg (fun _ => FetchOutcome.timeoutExc) [u1, u2, u3]).filter
        (fun r => r.result_type == "error")).length = 3 :=
  ⟨rfl, rfl, rfl⟩

/-- C10: `query_cdx_api` is total at its interface — every fetch outcome,
responses and all three caught exception shapes alike, yields a
`(results, error, status)` triple; an exception that is neither a requests
`Timeout` nor a `ConnectionError` maps to classification `error` with
`"Error: "` followed by the first 100 characters of the exception message as
the detail, and a `ConnectionError` maps to `error` with a fixed message. -/
theorem C10_total_classification (parse : String → Option J) (timeout : Nat)
    (output msg : String) :
    (∀ outcome : FetchOutcome, ∃ (res : List (RowData J)) (err : Option String)
        (cls : Classification), query_cdx_api parse timeout output outcome = (res, err, cls)) ∧
    query_cdx_api parse timeout output (FetchOutcome.otherExc msg) =
      ([], some ("Error: " ++ pyTake msg 100), Classification.error) ∧
    query_cdx_api parse timeout output FetchOutcome.connectionErrorExc =
      ([], some "Connection error: Could not connect to CDX server",
        Classification.error) :=
  ⟨fun outcome => ⟨(query_cdx_api parse timeout output outcome).1,
    (query_cdx_api parse timeout output outcome).2.1,
    (query_cdx_api parse timeout output outcome).2.2, rfl⟩, rfl, rfl⟩

end CCI
